import Mathlib

/-!
# Verification of `jaxampler`'s `Triangular` distribution

Shallow embedding of `src/models/utils/triangular.py` (class `Triangular`)
over the reals.  Scalars stand for the elementwise/broadcast semantics of the
array backend: every operation of the source acts independently on each
broadcast element, so a claim about "every broadcast element" is a claim about
the scalar function.

Log-scale values live in `EReal` so that the backend's `-inf` is representable
(`⊥`).  `jnp.log` is embedded as `elog` below; `jnp.where`-cascades, in which a
later `where` overwrites the elements selected by its condition, are embedded
as nested if-then-else with the *last* `where` outermost.
-/

namespace Jaxampler

open Real

/-- Embedding of `jnp.log` on the reals extended with `-∞`:
`log 0 = -inf` in the array backend, embedded as `⊥`; positive arguments give
the real logarithm.  Negative arguments (NaN in the backend's float semantics)
are mapped to `⊥`; under the parameter invariant no selected branch of the
source ever applies the logarithm to a negative number, so this choice is
never exercised by the theorems below. -/
noncomputable def elog (x : ℝ) : EReal :=
  if x ≤ 0 then ⊥ else ((Real.log x : ℝ) : EReal)

/-- `exp` on extended-real log-values, returning a real number:
`exp (-inf) = 0`.  (`⊤` never arises as a log-CDF value; it is sent to `0`,
an arbitrary choice that no theorem exercises.) -/
noncomputable def expE (e : EReal) : ℝ :=
  if e = ⊥ then 0 else if e = ⊤ then 0 else Real.exp e.toReal

/-- The value object of `Triangular.__init__`: the three stored parameters
`self._low`, `self._mode`, `self._high`, and `self._name` (stored by the
`ContinuousRV` base class; modelled from the spec: "name — optional
identifying label for display purposes only"). -/
structure Triangular where
  low : ℝ
  mode : ℝ
  high : ℝ
  name : Option String

/-- The error abstracting the three `assert` statements of
`Triangular.check_params` (spec: "ParameterOrderError"), one constructor per
assertion, carrying which ordering failed. -/
inductive ParameterOrderError where
  | lowHigh   -- "low must be less than or equal to high"
  | lowMode   -- "low must be less than or equal to mid"
  | modeHigh  -- "mid must be less than or equal to high"

/-- `Triangular.check_params`: the three assertions in source order.  The
first failing assertion raises; success returns unit. -/
noncomputable def check_params (low mode high : ℝ) :
    Except ParameterOrderError Unit :=
  if low ≤ high then
    if low ≤ mode then
      if mode ≤ high then Except.ok ()
      else Except.error ParameterOrderError.modeHigh
    else Except.error ParameterOrderError.lowMode
  else Except.error ParameterOrderError.lowHigh

/-- The positional/default argument list of `Triangular.__init__`:
`(low: ArrayLike = 0, high: ArrayLike = 1, mode: ArrayLike = 0.5,
name: str = None)`.  Field order is the source's positional order (`high`
before `mode`); field defaults are the source's defaults. -/
structure TriangularArgs where
  low : ℝ := 0
  high : ℝ := 1
  mode : ℝ := 1 / 2  -- 0.5
  name : Option String := none

/-- `Triangular.__init__`: stores the parameters, runs `check_params`, and
stores the name; an assertion failure propagates and no object is produced. -/
noncomputable def construct (a : TriangularArgs) :
    Except ParameterOrderError Triangular :=
  match check_params a.low a.mode a.high with
  | Except.ok _ => Except.ok ⟨a.low, a.mode, a.high, a.name⟩
  | Except.error e => Except.error e

/-- `Triangular.logpdf`: the source's five-`where` cascade, written with the
last (highest-priority) `where` outermost.  Source order, innermost first:
`where(x < low, -inf, x)`; `where(low ≤ x ∧ x < mode, log 2 + log (x-low)
- log (high-low) - log (mode-low), ·)`; `where(x == mode, log 2 -
log (high-low), ·)`; `where(mode < x ∧ x ≤ high, log 2 + log (high-x) -
log (high-low) - log (high-mode), ·)`; `where(x > high, -inf, ·)`. -/
noncomputable def logpdf (t : Triangular) (x : ℝ) : EReal :=
  if t.high < x then ⊥
  else if t.mode < x ∧ x ≤ t.high then
    elog 2 + elog (t.high - x) - elog (t.high - t.low) - elog (t.high - t.mode)
  else if x = t.mode then elog 2 - elog (t.high - t.low)
  else if t.low ≤ x ∧ x < t.mode then
    elog 2 + elog (x - t.low) - elog (t.high - t.low) - elog (t.mode - t.low)
  else if x < t.low then ⊥
  else ((x : ℝ) : EReal)

/-- `Triangular.logcdf`: the source's five-`where` cascade, last `where`
outermost.  Source order, innermost first: `where(x < low, -inf, x)`;
`where(low ≤ x ∧ x < mode, 2 log (x-low) - log (high-low) - log (mode-low),
·)`; `where(x == mode, log 0.5, ·)`; `where(mode < x ∧ x < high,
log (1 - (high-x)^2 / ((high-low)(high-mode))), ·)`;
`where(x ≥ high, log 1, ·)`. -/
noncomputable def logcdf (t : Triangular) (x : ℝ) : EReal :=
  if t.high ≤ x then elog 1
  else if t.mode < x ∧ x < t.high then
    elog (1 - (t.high - x) ^ 2 / ((t.high - t.low) * (t.high - t.mode)))
  else if x = t.mode then elog (1 / 2)  -- log 0.5
  else if t.low ≤ x ∧ x < t.mode then
    2 * elog (x - t.low) - elog (t.high - t.low) - elog (t.mode - t.low)
  else if x < t.low then ⊥
  else ((x : ℝ) : EReal)

/-- Modelled from the spec: the `ContinuousRV` base class (not part of this
file's source) supplies "a `cdf(x)` method defined generically as
`exp(logCDF(x))`". -/
noncomputable def cdf (t : Triangular) (x : ℝ) : ℝ :=
  expE (logcdf t x)

/-- `Triangular.cdfinv`: `_Fc = self.cdf(self._mode)`, then a single `where`
choosing `low + sqrt(x (mode-low) (high-low))` when `x < _Fc`, else
`high - sqrt((1-x) (high-low) (high-mode))`. -/
noncomputable def cdfinv (t : Triangular) (x : ℝ) : ℝ :=
  if x < cdf t t.mode then
    t.low + Real.sqrt (x * (t.mode - t.low) * (t.high - t.low))
  else
    t.high - Real.sqrt ((1 - x) * (t.high - t.low) * (t.high - t.mode))

/-- The expression handed to `lax.sqrt` by the branch of `Triangular.cdfinv`
that the `where`-condition selects. -/
noncomputable def cdfinv_sqrtArg (t : Triangular) (x : ℝ) : ℝ :=
  if x < cdf t t.mode then x * (t.mode - t.low) * (t.high - t.low)
  else (1 - x) * (t.high - t.low) * (t.high - t.mode)

/-- `Triangular.__repr__`, parameterised by the host language's rendering
`sn` of a number into a string (Python f-string formatting is outside this
repository): builds `"Triangular(low=…, mode=…, high=…"`, appends
`", name=…"` exactly when `self._name is not None`, then `")"`. -/
def Triangular.render (sn : ℝ → String) (t : Triangular) : String :=
  let s := "Triangular(low=" ++ sn t.low ++ ", mode=" ++ sn t.mode ++
    ", high=" ++ sn t.high
  let s := match t.name with
    | some n => s ++ ", name=" ++ n
    | none => s
  s ++ ")"

/-- The spec's five-case formula for `logCDF` (claim side): `-∞` for
`x < low`; `2 ln (x-low) - ln (high-low) - ln (mode-low)` for
`low ≤ x < mode`; `ln 0.5` for `x == mode`;
`ln (1 - (high-x)^2/((high-low)(high-mode)))` for `mode < x < high`; `0` for
`x ≥ high`; "each case selected elementwise and later cases taking priority
on overlap" (so the last case is outermost).  The trailing `⊥` is
unreachable: the five cases cover every real `x`. -/
noncomputable def logCDF_spec (low mode high x : ℝ) : EReal :=
  if high ≤ x then 0
  else if mode < x ∧ x < high then
    elog (1 - (high - x) ^ 2 / ((high - low) * (high - mode)))
  else if x = mode then elog (1 / 2)
  else if low ≤ x ∧ x < mode then
    2 * elog (x - low) - elog (high - low) - elog (mode - low)
  else if x < low then ⊥
  else ⊥

/-- The spec's five-case formula for `logDensity` (claim side): `-∞` for
`x < low`; `ln 2 + ln (x-low) - ln (high-low) - ln (mode-low)` for
`low ≤ x < mode`; `ln 2 - ln (high-low)` for `x == mode`;
`ln 2 + ln (high-x) - ln (high-low) - ln (high-mode)` for `mode < x ≤ high`;
`-∞` for `x > high`; later cases take priority.  The trailing `⊥` is
unreachable: the five cases cover every real `x`. -/
noncomputable def logPDF_spec (low mode high x : ℝ) : EReal :=
  if high < x then ⊥
  else if mode < x ∧ x ≤ high then
    elog 2 + elog (high - x) - elog (high - low) - elog (high - mode)
  else if x = mode then elog 2 - elog (high - low)
  else if low ≤ x ∧ x < mode then
    elog 2 + elog (x - low) - elog (high - low) - elog (mode - low)
  else if x < low then ⊥
  else ⊥

/-- The spec's formula for `inverseCDF` (claim side): with
`Fc = CDF(mode) = exp(logCDF(mode))`, return
`low + sqrt(p (mode-low) (high-low))` if `p < Fc`, else
`high - sqrt((1-p) (high-low) (high-mode))`. -/
noncomputable def cdfinv_spec (low mode high p : ℝ) : ℝ :=
  if p < expE (logCDF_spec low mode high mode) then
    low + Real.sqrt (p * (mode - low) * (high - low))
  else
    high - Real.sqrt ((1 - p) * (high - low) * (high - mode))

lemma elog_one : elog 1 = 0 := by
  simp [elog, Real.log_one]

lemma elog_pos_coe {x : ℝ} (hx : 0 < x) : elog x = ((Real.log x : ℝ) : EReal) := by
  simp [elog, not_le.mpr hx]

/-- The source `logcdf` agrees with the spec's five-case piecewise formula at
every input and every parameter triple: the `where`-cascade's initial value
`x` survives only where no case fires, and the five cases are exhaustive. -/
lemma logcdf_eq_spec (t : Triangular) (x : ℝ) :
    logcdf t x = logCDF_spec t.low t.mode t.high x := by
  unfold logcdf logCDF_spec
  split_ifs with h1 h2 h3 h4 h5
  · exact elog_one
  · rfl
  · rfl
  · rfl
  · rfl
  · exfalso
    have hlx : t.low ≤ x := not_lt.mp h5
    have hmx : t.mode ≤ x := by
      by_contra hc
      exact h4 ⟨hlx, not_le.mp hc⟩
    have hmx' : t.mode < x := lt_of_le_of_ne hmx (fun h => h3 h.symm)
    have hhx : t.high ≤ x := by
      by_contra hc
      exact h2 ⟨hmx', not_le.mp hc⟩
    exact h1 hhx

/-- The source `logpdf` agrees with the spec's five-case piecewise formula at
every input and every parameter triple. -/
lemma logpdf_eq_spec (t : Triangular) (x : ℝ) :
    logpdf t x = logPDF_spec t.low t.mode t.high x := by
  unfold logpdf logPDF_spec
  split_ifs with h1 h2 h3 h4 h5
  · rfl
  · rfl
  · rfl
  · rfl
  · rfl
  · exfalso
    have hlx : t.low ≤ x := not_lt.mp h5
    have hmx : t.mode ≤ x := by
      by_contra hc
      exact h4 ⟨hlx, not_le.mp hc⟩
    have hmx' : t.mode < x := lt_of_le_of_ne hmx (fun h => h3 h.symm)
    have hhx : x ≤ t.high := not_lt.mp h1
    exact h2 ⟨hmx', hhx⟩

/-- At `x = mode` with `mode < high`, the `x == mode` `where` of `logcdf`
is the last one to fire, so the result is `log 0.5` whatever the mode is. -/
lemma logcdf_mode (t : Triangular) (h : t.mode < t.high) :
    logcdf t t.mode = elog (1 / 2) := by
  unfold logcdf
  rw [if_neg (not_le.mpr h), if_neg (fun hc => lt_irrefl t.mode hc.1),
    if_pos rfl]

lemma expE_coe (r : ℝ) : expE ((r : ℝ) : EReal) = Real.exp r := by
  unfold expE
  rw [if_neg (EReal.coe_ne_bot r), if_neg (EReal.coe_ne_top r),
    EReal.toReal_coe]

/-- The branch threshold of `cdfinv`: `_Fc = cdf(mode) = exp(log 0.5) = 1/2`
for every parameter triple with `mode < high`. -/
lemma cdf_mode_eq_half (t : Triangular) (h : t.mode < t.high) :
    cdf t t.mode = 1 / 2 := by
  unfold cdf
  rw [logcdf_mode t h, elog_pos_coe (by norm_num : (0:ℝ) < 1/2), expE_coe,
    Real.exp_log (by norm_num : (0:ℝ) < 1/2)]

/-- A concrete numeral-rendering function matching Python's formatting of
the three default parameter values, used to instantiate witness theorems. -/
noncomputable def showNum (x : ℝ) : String :=
  if x = 0 then "0" else if x = 1 then "1" else "0.5"

/-- C1: for every valid parameter triple (low ≤ mode ≤ high) and every input
x, `logcdf` equals the spec's five-case piecewise formula (`-∞` below `low`;
`2 ln(x-low) - ln(high-low) - ln(mode-low)` on `[low, mode)`; `ln 0.5` at
`mode`; `ln(1 - (high-x)^2/((high-low)(high-mode)))` on `(mode, high)`; `0`
from `high` on), with later cases taking priority on overlap. -/
theorem C1_logcdf_matches_piecewise (t : Triangular) (x : ℝ)
    (h1 : t.low ≤ t.mode) (h2 : t.mode ≤ t.high) :
    logcdf t x = logCDF_spec t.low t.mode t.high x :=
  logcdf_eq_spec t x

/-- Witness for C1 at `(low, mode, high) = (0, 1/2, 1)`, `x = 3/10`. -/
theorem C1_logcdf_matches_piecewise_witness :
    (0:ℝ) ≤ 1/2 ∧ (1/2:ℝ) ≤ 1 ∧
      logcdf ⟨0, 1/2, 1, none⟩ (3/10) = logCDF_spec 0 (1/2) 1 (3/10) :=
  ⟨by norm_num, by norm_num,
    C1_logcdf_matches_piecewise ⟨0, 1/2, 1, none⟩ (3/10)
      (by norm_num) (by norm_num)⟩

/-- C5: for every valid parameter triple and every input x, `logpdf` equals
the spec's five-case piecewise density formula, `-∞` outside `[low, high]`;
being a total function, it raises nothing for out-of-range x. -/
theorem C5_logpdf_matches_piecewise (t : Triangular) (x : ℝ)
    (h1 : t.low ≤ t.mode) (h2 : t.mode ≤ t.high) :
    logpdf t x = logPDF_spec t.low t.mode t.high x :=
  logpdf_eq_spec t x

/-- Witness for C5 at `(low, mode, high) = (0, 1/2, 1)`, `x = 7/10`. -/
theorem C5_logpdf_matches_piecewise_witness :
    (0:ℝ) ≤ 1/2 ∧ (1/2:ℝ) ≤ 1 ∧
      logpdf ⟨0, 1/2, 1, none⟩ (7/10) = logPDF_spec 0 (1/2) 1 (7/10) :=
  ⟨by norm_num, by norm_num,
    C5_logpdf_matches_piecewise ⟨0, 1/2, 1, none⟩ (7/10)
      (by norm_num) (by norm_num)⟩

/-- C4: construction succeeds exactly when `low ≤ mode ∧ mode ≤ high` (which
already forces `low ≤ high`), and otherwise fails with a
`ParameterOrderError`, producing no object. -/
theorem C4_construct_succeeds_iff_ordered (a : TriangularArgs) :
    ((∃ t, construct a = Except.ok t) ↔ (a.low ≤ a.mode ∧ a.mode ≤ a.high)) ∧
    ((∃ e, construct a = Except.error e) ↔
      ¬ (a.low ≤ a.mode ∧ a.mode ≤ a.high)) := by
  unfold construct check_params
  split_ifs with h1 h2 h3
  · simp [h2, h3]
  · simp [h3]
  · simp [h2]
  · have hno : ¬ (a.low ≤ a.mode ∧ a.mode ≤ a.high) :=
      fun h => h1 (h.1.trans h.2)
    simp [hno]

/-- Witness for C4 at the default argument tuple `(0, 1, 1/2, none)`. -/
theorem C4_construct_succeeds_iff_ordered_witness :
    ((∃ t, construct ⟨0, 1, 1/2, none⟩ = Except.ok t) ↔
      ((0:ℝ) ≤ 1/2 ∧ (1/2:ℝ) ≤ 1)) ∧
    ((∃ e, construct ⟨0, 1, 1/2, none⟩ = Except.error e) ↔
      ¬ ((0:ℝ) ≤ 1/2 ∧ (1/2:ℝ) ≤ 1)) :=
  C4_construct_succeeds_iff_ordered ⟨0, 1, 1/2, none⟩

/-- C10: construction with no arguments succeeds with
`low = 0, mode = 1/2, high = 1, name = none`; positionally the constructor
takes `(low, high, mode, name)`, so `construct ⟨a, b, c, n⟩` stores `a` as
low, `b` as high and `c` as mode. -/
theorem C10_defaults_and_positional_order (a b c : ℝ) (n : Option String)
    (h1 : a ≤ c) (h2 : c ≤ b) :
    construct {} = Except.ok ⟨0, 1/2, 1, none⟩ ∧
    construct ⟨a, b, c, n⟩ = Except.ok ⟨a, c, b, n⟩ := by
  constructor
  · unfold construct check_params
    norm_num
  · unfold construct check_params
    rw [if_pos (h1.trans h2), if_pos h1, if_pos h2]

/-- Witness for C10 at `(a, b, c) = (2, 5, 3)`, `n = some "x"`. -/
theorem C10_defaults_and_positional_order_witness :
    (2:ℝ) ≤ 3 ∧ (3:ℝ) ≤ 5 ∧
      (construct {} = Except.ok ⟨0, 1/2, 1, none⟩ ∧
       construct ⟨2, 5, 3, some "x"⟩ = Except.ok ⟨2, 3, 5, some "x"⟩) :=
  ⟨by norm_num, by norm_num,
    C10_defaults_and_positional_order 2 5 3 (some "x")
      (by norm_num) (by norm_num)⟩

/-- C9: with a number renderer `sn` matching Python's formatting of `0`,
`0.5` and `1`, `render` on `(0, 1/2, 1)` with no name yields exactly
`"Triangular(low=0, mode=0.5, high=1)"`, with name `"T"` yields exactly
`"Triangular(low=0, mode=0.5, high=1, name=T)"`, and in general the
`name=` clause is present exactly when a name was supplied. -/
theorem C9_render_strings (sn : ℝ → String) (t : Triangular) (nm : String)
    (h0 : sn 0 = "0") (hh : sn (1/2) = "0.5") (h1 : sn 1 = "1") :
    Triangular.render sn ⟨0, 1/2, 1, none⟩ =
      "Triangular(low=0, mode=0.5, high=1)" ∧
    Triangular.render sn ⟨0, 1/2, 1, some "T"⟩ =
      "Triangular(low=0, mode=0.5, high=1, name=T)" ∧
    (t.name = none → Triangular.render sn t =
      "Triangular(low=" ++ sn t.low ++ ", mode=" ++ sn t.mode ++
        ", high=" ++ sn t.high ++ ")") ∧
    (t.name = some nm → Triangular.render sn t =
      "Triangular(low=" ++ sn t.low ++ ", mode=" ++ sn t.mode ++
        ", high=" ++ sn t.high ++ ", name=" ++ nm ++ ")") := by
  refine ⟨?_, ?_, ?_, ?_⟩
  · show ((("Triangular(low=" ++ sn 0 ++ ", mode=" ++ sn (1/2) ++
      ", high=" ++ sn 1)) ++ ")") = _
    rw [h0, hh, h1]
    rfl
  · show ((("Triangular(low=" ++ sn 0 ++ ", mode=" ++ sn (1/2) ++
      ", high=" ++ sn 1) ++ ", name=" ++ "T") ++ ")") = _
    rw [h0, hh, h1]
    rfl
  · intro hn
    unfold Triangular.render
    rw [hn]
  · intro hn
    unfold Triangular.render
    rw [hn]

/-- Witness for C9 with the concrete renderer `showNum` and a named
distribution `(0, 1/2, 1, some "T")`. -/
theorem C9_render_strings_witness :
    showNum 0 = "0" ∧ showNum (1/2) = "0.5" ∧ showNum 1 = "1" ∧
    (Triangular.render showNum ⟨0, 1/2, 1, none⟩ =
      "Triangular(low=0, mode=0.5, high=1)" ∧
     Triangular.render showNum ⟨0, 1/2, 1, some "T"⟩ =
      "Triangular(low=0, mode=0.5, high=1, name=T)" ∧
     ((⟨0, 1/2, 1, some "T"⟩ : Triangular).name = none →
       Triangular.render showNum ⟨0, 1/2, 1, some "T"⟩ =
       "Triangular(low=" ++ showNum 0 ++ ", mode=" ++ showNum (1/2) ++
         ", high=" ++ showNum 1 ++ ")") ∧
     ((⟨0, 1/2, 1, some "T"⟩ : Triangular).name = some "T" →
       Triangular.render showNum ⟨0, 1/2, 1, some "T"⟩ =
       "Triangular(low=" ++ showNum 0 ++ ", mode=" ++ showNum (1/2) ++
         ", high=" ++ showNum 1 ++ ", name=" ++ "T" ++ ")")) :=
  ⟨by simp [showNum], by norm_num [showNum], by norm_num [showNum],
    C9_render_strings showNum ⟨0, 1/2, 1, some "T"⟩ "T"
      (by simp [showNum]) (by norm_num [showNum]) (by norm_num [showNum])⟩

/-- C6: for every valid parameter triple and every probability input p,
`cdfinv` equals the spec's formula: `low + sqrt(p (mode-low) (high-low))`
when `p < Fc` and `high - sqrt((1-p) (high-low) (high-mode))` otherwise,
with `Fc = exp(logCDF(mode))`. -/
theorem C6_cdfinv_matches_formula (t : Triangular) (p : ℝ)
    (h1 : t.low ≤ t.mode) (h2 : t.mode ≤ t.high) :
    cdfinv t p = cdfinv_spec t.low t.mode t.high p := by
  unfold cdfinv cdfinv_spec cdf
  rw [logcdf_eq_spec]

/-- Witness for C6 at `(0, 1/2, 1)`, `p = 1/4`. -/
theorem C6_cdfinv_matches_formula_witness :
    (0:ℝ) ≤ 1/2 ∧ (1/2:ℝ) ≤ 1 ∧
      cdfinv ⟨0, 1/2, 1, none⟩ (1/4) = cdfinv_spec 0 (1/2) 1 (1/4) :=
  ⟨by norm_num, by norm_num,
    C6_cdfinv_matches_formula ⟨0, 1/2, 1, none⟩ (1/4)
      (by norm_num) (by norm_num)⟩

/-- C8: for every triple with `low < mode < high`, the branch threshold
`_Fc = cdf(mode)` inside `cdfinv` is exactly `1/2` wherever the mode lies,
and `cdfinv` selects the lower-branch formula exactly when `p < 1/2`. -/
theorem C8_branch_threshold_is_half (t : Triangular) (p : ℝ)
    (h1 : t.low < t.mode) (h2 : t.mode < t.high) :
    cdf t t.mode = 1 / 2 ∧
    cdfinv t p = (if p < (1/2 : ℝ) then
        t.low + Real.sqrt (p * (t.mode - t.low) * (t.high - t.low))
      else
        t.high - Real.sqrt ((1 - p) * (t.high - t.low) * (t.high - t.mode))) := by
  have hFc := cdf_mode_eq_half t h2
  refine ⟨hFc, ?_⟩
  unfold cdfinv
  rw [hFc]

/-- Witness for C8 with an off-centre mode: `(0, 1/4, 1)`, `p = 3/4`. -/
theorem C8_branch_threshold_is_half_witness :
    (0:ℝ) < 1/4 ∧ (1/4:ℝ) < 1 ∧
      (cdf ⟨0, 1/4, 1, none⟩ (1/4) = 1 / 2 ∧
       cdfinv ⟨0, 1/4, 1, none⟩ (3/4) = (if (3/4 : ℝ) < (1/2 : ℝ) then
          0 + Real.sqrt (3/4 * (1/4 - 0) * (1 - 0))
        else
          1 - Real.sqrt ((1 - 3/4) * (1 - 0) * (1 - 1/4)))) :=
  ⟨by norm_num, by norm_num,
    C8_branch_threshold_is_half ⟨0, 1/4, 1, none⟩ (3/4)
      (by norm_num) (by norm_num)⟩

/-- C7: `cdfinv` is a total function (it never raises), and for any `p`
outside `[0, 1]` (given `low < mode < high`) the expression passed to
`lax.sqrt` in the branch that the `where` selects is strictly negative —
no clamping or bounds check intervenes. -/
theorem C7_out_of_range_p_reaches_negative_sqrt (t : Triangular) (p : ℝ)
    (h1 : t.low < t.mode) (h2 : t.mode < t.high) (hp : p < 0 ∨ 1 < p) :
    cdfinv_sqrtArg t p < 0 ∧
    (cdfinv t p = t.low + Real.sqrt (cdfinv_sqrtArg t p) ∨
     cdfinv t p = t.high - Real.sqrt (cdfinv_sqrtArg t p)) := by
  have hFc := cdf_mode_eq_half t h2
  unfold cdfinv cdfinv_sqrtArg
  rw [hFc]
  rcases hp with hp | hp
  · have hcond : p < (1/2 : ℝ) := by linarith
    rw [if_pos hcond, if_pos hcond]
    refine ⟨?_, Or.inl rfl⟩
    rw [mul_assoc]
    exact mul_neg_of_neg_of_pos hp
      (mul_pos (sub_pos.mpr h1) (sub_pos.mpr (h1.trans h2)))
  · have hcond : ¬ p < (1/2 : ℝ) := by linarith
    rw [if_neg hcond, if_neg hcond]
    refine ⟨?_, Or.inr rfl⟩
    rw [mul_assoc]
    exact mul_neg_of_neg_of_pos (by linarith)
      (mul_pos (sub_pos.mpr (h1.trans h2)) (sub_pos.mpr h2))

/-- Witness for C7 at `(0, 1/2, 1)`, `p = 2`. -/
theorem C7_out_of_range_p_reaches_negative_sqrt_witness :
    (0:ℝ) < 1/2 ∧ (1/2:ℝ) < 1 ∧ ((2:ℝ) < 0 ∨ (1:ℝ) < 2) ∧
    (cdfinv_sqrtArg ⟨0, 1/2, 1, none⟩ 2 < 0 ∧
     (cdfinv ⟨0, 1/2, 1, none⟩ 2 =
        0 + Real.sqrt (cdfinv_sqrtArg ⟨0, 1/2, 1, none⟩ 2) ∨
      cdfinv ⟨0, 1/2, 1, none⟩ 2 =
        1 - Real.sqrt (cdfinv_sqrtArg ⟨0, 1/2, 1, none⟩ 2))) :=
  ⟨by norm_num, by norm_num, Or.inr (by norm_num),
    C7_out_of_range_p_reaches_negative_sqrt ⟨0, 1/2, 1, none⟩ 2
      (by norm_num) (by norm_num) (Or.inr (by norm_num))⟩

/-- C2 (code bug): `logcdf` is *not* non-decreasing in x.  With the valid
parameters `(low, mode, high) = (0, 9/10, 1)` and `x1 = 89/100 ≤ x2 = 9/10`,
the code yields `logcdf x1 = ln((89/100)^2 / (9/10)) ≈ ln 0.88` but
`logcdf x2 = ln 0.5`, a strict decrease: the unconditional `log 0.5` branch
at `x == mode` contradicts the surrounding branches whenever the mode is not
the midpoint of `[low, high]`. -/
theorem C2_logcdf_not_monotone_at_failing_input :
    (0:ℝ) ≤ 9/10 ∧ (9/10:ℝ) ≤ 1 ∧ (89/100:ℝ) ≤ 9/10 ∧
    ¬ (logcdf ⟨0, 9/10, 1, none⟩ (89/100) ≤ logcdf ⟨0, 9/10, 1, none⟩ (9/10)) := by
  refine ⟨by norm_num, by norm_num, by norm_num, ?_⟩
  rw [not_le]
  have hL : logcdf ⟨0, 9/10, 1, none⟩ (89/100) =
      2 * elog (89/100) - elog 1 - elog (9/10) := by
    unfold logcdf
    norm_num
  have hR : logcdf ⟨0, 9/10, 1, none⟩ (9/10) = elog (1/2) := by
    unfold logcdf
    norm_num
  rw [hL, hR, elog_one, elog_pos_coe (by norm_num : (0:ℝ) < 1/2),
    elog_pos_coe (by norm_num : (0:ℝ) < 89/100),
    elog_pos_coe (by norm_num : (0:ℝ) < 9/10)]
  have h2 : (2 : EReal) = ((2:ℝ) : EReal) := by norm_cast
  rw [h2]
  norm_cast
  have hpow : Real.log ((89/100:ℝ)^2) = 2 * Real.log (89/100) := by
    rw [Real.log_pow]; norm_num
  rw [sub_zero, ← hpow, ← Real.log_div (by norm_num) (by norm_num)]
  exact Real.log_lt_log (by norm_num) (by norm_num)

/-- C3 (code bug): the round-trip law `cdfinv (cdf x) = x` fails inside
`(low, high)`.  With the valid parameters `(0, 9/10, 1)` and `x = 4/5`,
`cdf x = 32/45 ≥ 1/2 = _Fc` (because the `x == mode` branch of `logcdf`
returns `log 0.5` unconditionally), so `cdfinv` takes the upper-branch
formula and returns `1 - sqrt(13/450) ≈ 0.83 ≠ 4/5`. -/
theorem C3_roundtrip_fails_at_failing_input :
    (0:ℝ) ≤ 9/10 ∧ (9/10:ℝ) ≤ 1 ∧ (0:ℝ) < 4/5 ∧ (4/5:ℝ) < 1 ∧
    cdfinv ⟨0, 9/10, 1, none⟩ (cdf ⟨0, 9/10, 1, none⟩ (4/5)) ≠ 4/5 := by
  refine ⟨by norm_num, by norm_num, by norm_num, by norm_num, ?_⟩
  have hcdf : cdf ⟨0, 9/10, 1, none⟩ (4/5) = 32/45 := by
    have hlog : logcdf ⟨0, 9/10, 1, none⟩ (4/5) =
        2 * elog (4/5) - elog 1 - elog (9/10) := by
      unfold logcdf; norm_num
    unfold cdf
    rw [hlog, elog_one, elog_pos_coe (by norm_num : (0:ℝ) < 4/5),
      elog_pos_coe (by norm_num : (0:ℝ) < 9/10)]
    have h2 : (2 : EReal) = ((2:ℝ) : EReal) := by norm_cast
    rw [h2]
    have hco : (((2:ℝ) : EReal) * ((Real.log (4/5) : ℝ) : EReal) - 0 -
        ((Real.log (9/10) : ℝ) : EReal))
        = (((2 * Real.log (4/5) - 0 - Real.log (9/10) : ℝ)) : EReal) := by
      norm_cast
    rw [hco, expE_coe]
    have hpow : (2:ℝ) * Real.log (4/5) = Real.log ((4/5:ℝ)^2) := by
      rw [Real.log_pow]; norm_num
    rw [sub_zero, hpow, ← Real.log_div (by norm_num) (by norm_num),
      Real.exp_log (by norm_num)]
    norm_num
  rw [hcdf]
  have hmode : cdf ⟨0, 9/10, 1, none⟩ (9/10) = 1/2 :=
    cdf_mode_eq_half ⟨0, 9/10, 1, none⟩ (by norm_num : (9/10:ℝ) < 1)
  unfold cdfinv
  rw [show (⟨0, 9/10, 1, none⟩ : Triangular).mode = (9/10:ℝ) from rfl, hmode,
    if_neg (by norm_num : ¬ (32/45:ℝ) < 1/2),
    show ((1 - 32/45) * (1 - 0) * (1 - 9/10) : ℝ) = 13/450 from by norm_num]
  intro h
  have hs : Real.sqrt (13/450) = 1/5 := by linarith
  have hsq := Real.sq_sqrt (by norm_num : (0:ℝ) ≤ 13/450)
  rw [hs] at hsq
  norm_num at hsq

end Jaxampler
